import Mathlib

/-!
Verification development for the tinder-bot repository.

The Python modules under scrutiny are embedded shallowly:

* text processing from `gpt.py` and `image_utils.py` is modelled on `List Char`
  (Lean `String` operations such as `splitOn` do not reduce in the kernel, so
  the Python `str` methods used by the code are re-implemented structurally;
  each helper documents the Python method it models);
* the pointer / screenshot side effects of `capture_and_stitch.py` and
  `scroll.py` are modelled as event traces (`CaptureEvent`), keeping scroll
  magnitudes and screenshot indices exact while abstracting pointer
  coordinates, sleeps and logging, which no claim mentions;
* the exception behaviour of `capture_and_stitch_profile` is modelled with
  `Except`: a raised Python exception is `Except.error`, a normal return is
  `Except.ok`;
* `window.py` visual detection: the two OpenCV contour stages are abstracted
  as `Option` inputs (a stage either yields a bounding box or misses); the
  surrounding control flow and the synthesized fallback arithmetic are
  modelled exactly.
-/

/- ### Python `str` primitives, modelled on `List Char`

Python `str.split(sep)` for a one-character separator, no maxsplit:
`"".split(s) == [""]`, separators at the ends produce empty pieces. -/
def pySplit (sep : Char) : List Char → List (List Char)
  | [] => [[]]
  | c :: cs =>
    let rest := pySplit sep cs
    if c = sep then [] :: rest
    else match rest with
      | [] => [[c]]
      | r :: rs => (c :: r) :: rs

/- Python `str.strip()` with no argument: remove leading and trailing
whitespace (the ASCII whitespace relevant to the claims). -/
def pyStrip (s : List Char) : List Char :=
  ((s.dropWhile Char.isWhitespace).reverse.dropWhile Char.isWhitespace).reverse

/- Python `str.upper()` (ASCII range, which covers every token the parser
compares against). -/
def pyUpper (s : List Char) : List Char := s.map Char.toUpper

/- Python `str.startswith(p)`. -/
def pyStartsWith : List Char → List Char → Bool
  | [], _ => true
  | _ :: _, [] => false
  | p :: ps, c :: cs => p = c && pyStartsWith ps cs

/- Helper for `pySplitOnceLast`: the characters after the first occurrence of
`sep` (meaningful only when `sep` occurs). -/
def afterFirst (sep : Char) : List Char → List Char
  | [] => []
  | c :: cs => if c = sep then cs else afterFirst sep cs

/- Python `s.split(sep, 1)[-1]`: everything after the first occurrence of
`sep`, or the whole string when `sep` does not occur. -/
def pySplitOnceLast (sep : Char) (s : List Char) : List Char :=
  if s.contains sep then afterFirst sep s else s

/- Python `str.isdigit()` restricted to ASCII digits (the filenames at issue
are ASCII): nonempty and all digits. -/
def pyIsDigit (s : List Char) : Bool :=
  !s.isEmpty && s.all Char.isDigit

/- Python `int(s)` on a digit string. -/
def digitsToNat (s : List Char) : Nat :=
  s.foldl (fun n c => n * 10 + (c.toNat - 48)) 0

/- Python `os.path.basename`: the part after the last path separator. -/
def pyBasename (s : List Char) : List Char :=
  (pySplit '/' s).getLastD []

/- ### image_utils.py -/

/- `image_utils.extract_index` (image_utils.py lines 34-43): take the
basename, split on underscores, and if there are at least two parts and
`parts[1]` is a digit string return its value, otherwise 999. -/
def extract_index (path : String) : Nat :=
  let filename := pyBasename path.data
  let parts := pySplit '_' filename
  match parts.drop 1 with
  | p1 :: _ => if pyIsDigit p1 then digitsToNat p1 else 999
  | [] => 999

/- One insertion step of a stable ascending sort keyed by `extract_index`:
the new element goes after strictly smaller keys and before equal keys,
exactly where Python stable `sorted` puts an element that occurs earlier in
the input than the elements it ties with. -/
def insortByIndex (a : String) : List String → List String
  | [] => [a]
  | b :: bs =>
    if extract_index b < extract_index a then b :: insortByIndex a bs
    else a :: b :: bs

/- `sorted(image_paths, key=extract_index)` from `stitch_images`
(image_utils.py line 45).  Python `sorted` is specified to be stable, and a
stable ascending sort by a key is extensionally unique, so this insertion
sort computes exactly the list Python produces. -/
def sorted_by_index : List String → List String
  | [] => []
  | a :: as => insortByIndex a (sorted_by_index as)

/- Default grid of `stitch_images` when `layout` is `None`
(image_utils.py lines 58-65), as `(rows, cols)`: one row of `n` columns for
`n <= 3`, otherwise the fixed 2 x 3 grid. -/
def default_grid (n : Nat) : Nat × Nat :=
  if n ≤ 3 then (1, n) else (2, 3)

/- Grid actually used by `stitch_images` (image_utils.py lines 50-65):
the explicit `layout` argument when given, else the default. -/
def stitch_grid (n : Nat) : Option (Nat × Nat) → Nat × Nat
  | some rc => rc
  | none => default_grid n

/- Canvas size created by `stitch_images` (image_utils.py lines 81-84):
`grid_width = width * cols`, `grid_height = height * rows`, where `w`, `h`
are the first image dimensions (every other image is resized to them). -/
def stitch_canvas (n : Nat) (layout : Option (Nat × Nat)) (w h : Nat) : Nat × Nat :=
  ((stitch_grid n layout).2 * w, (stitch_grid n layout).1 * h)

/- ### gpt.py: the like/pass response parser (gpt.py lines 286-344) -/

def parse_fail_reason : String := "AI response unparseable or refusal; defaulting to LIKE."

def no_reason_msg : String := "(No reason provided by AI)"

/- Core of the parser, on the list of lines of the (stripped) response.
Faithful to gpt.py lines 287-341: with two or more lines, the first line
must carry the `DECISION:` label and a LIKE/PASS value, the reason is the
labelled remainder of the second line or, failing that, the whole second
line; with exactly one line, a bare LIKE/PASS token or a labelled one is
salvaged; any failure yields the fixed LIKE default with the failure
reason (the final `if not parsing_successful` override). -/
def parse_lines : List (List Char) → String × String
  | l0 :: l1 :: _ =>
    let dline := pyUpper (pyStrip l0)
    let rline := pyStrip l1
    if pyStartsWith "DECISION:".data dline then
      let d := pyStrip (pySplitOnceLast ':' dline)
      if d = "LIKE".data ∨ d = "PASS".data then
        if pyStartsWith "REASON:".data rline then
          (String.mk d, String.mk (pyStrip (pySplitOnceLast ':' rline)))
        else (String.mk d, String.mk rline)
      else ("LIKE", parse_fail_reason)
    else ("LIKE", parse_fail_reason)
  | [l0] =>
    let s := pyUpper (pyStrip l0)
    if s = "LIKE".data ∨ s = "PASS".data then (String.mk s, no_reason_msg)
    else if pyStartsWith "DECISION:".data s then
      let d := pyStrip (pySplitOnceLast ':' s)
      if d = "LIKE".data ∨ d = "PASS".data then (String.mk d, no_reason_msg)
      else ("LIKE", parse_fail_reason)
    else ("LIKE", parse_fail_reason)
  | [] => ("LIKE", parse_fail_reason)

/- The decision parsing of `like_or_pass` (gpt.py lines 281-344): the raw
response text is stripped (line 281) and split on newlines (line 287), then
parsed as above.  Returns `(decision, reason)`. -/
def like_or_pass_parse (text : String) : String × String :=
  parse_lines (pySplit '\n' (pyStrip text.data))

/- ### scroll.py -/

/- Scroll constants (scroll.py lines 12-19): negative amounts scroll down,
positive up. -/
def FIRST_SCROLL_AMOUNT : Int := -520

def SUBSEQUENT_SCROLL_AMOUNT : Int := -720

def UP_SCROLL_AMOUNT : Int := 600

/- `scroll.get_hardcoded_window` (scroll.py lines 99-113): the three
environment profiles defined at lines 33-90, with width and height computed
from the begin and end coordinates; any other environment raises
`NotImplementedError`, modelled as `Except.error`. -/
def get_hardcoded_window (environment : String) : Except String (Int × Int × Int × Int) :=
  if environment = "MONITOR" then .ok (2304, 617, 2500 - 2304, 1042 - 617)
  else if environment = "PRO" then .ok (935, 330, 1139 - 935, 739 - 330)
  else if environment = "AIR" then .ok (815, 260, 1018 - 815, 575 - 260)
  else .error ("No hardcoded window dimensions for environment: " ++ environment)

/- `scroll.get_safe_coordinates` (scroll.py lines 116-140) with the module
globals `SCREEN_WIDTH` and `SCREEN_HEIGHT` made explicit parameters `w`, `h`:
each axis is clamped with `max(margin, min(v, dimension - margin))` where
`margin = 50`. -/
def get_safe_coordinates (x y w h : Int) : Int × Int :=
  (max 50 (min x (w - 50)), max 50 (min y (h - 50)))

/- `total_scroll_distance` of `scroll_profile` (scroll.py line 305):
`abs(FIRST_SCROLL_AMOUNT) + abs(SUBSEQUENT_SCROLL_AMOUNT) * (NUM_SCROLLS - 1)`. -/
def total_scroll_distance (num : Nat) : Int :=
  |FIRST_SCROLL_AMOUNT| + |SUBSEQUENT_SCROLL_AMOUNT| * ((num : Int) - 1)

/- `scrolls_needed` of `scroll_profile` (scroll.py line 306); Python `//` is
floor division, hence `Int.fdiv`. -/
def scrolls_needed (num : Nat) : Int :=
  (total_scroll_distance num).fdiv |UP_SCROLL_AMOUNT| + 1

/- ### window.py: the synthesized fallback estimate (window.py lines 179-192) -/

/- `estimated_width = screen_width // 4`. -/
def estimated_width (screen_width : Nat) : Nat := screen_width / 4

/- `estimated_height = int(estimated_width * 19.5 / 9)` (window.py line 182).
The float product `estimated_width * 19.5` is exact, and the quotient by 9
has a fractional part that is a multiple of 1/6 when nonzero, so the float
result floors to the exact rational floor: `estimated_width * 39 / 18` in
integer arithmetic. -/
def estimated_height (screen_width : Nat) : Nat :=
  estimated_width screen_width * 39 / 18

/- `x = (screen_width - estimated_width) // 2` (window.py line 183);
Python `//` is floor division on ints, hence `Int.fdiv`. -/
def fallback_x (screen_width : Nat) : Int :=
  ((screen_width : Int) - estimated_width screen_width).fdiv 2

/- `y = (screen_height - estimated_height) // 2` (window.py line 184). -/
def fallback_y (screen_width screen_height : Nat) : Int :=
  ((screen_height : Int) - estimated_height screen_width).fdiv 2

/- The bounding box returned when both visual stages fail
(window.py lines 189-192). -/
def fallback_bbox (screen_width screen_height : Nat) : Int × Int × Int × Int :=
  (fallback_x screen_width, fallback_y screen_width screen_height,
   (estimated_width screen_width : Int), (estimated_height screen_width : Int))

/- `window.find_iphone_window` (window.py lines 63-192).  The two OpenCV
detection stages are abstracted as `stageA` and `stageB`: a stage either
yields a qualifying bounding box or misses (`none`); the control flow around
them is exact.  Environments `MONITOR` and `MAC` short-circuit to the
hardcoded window (lines 71-80); otherwise stage A is tried, then stage B,
then the synthesized centered estimate. -/
def find_iphone_window (environment : String) (screen_width screen_height : Nat)
    (stageA stageB : Option (Int × Int × Int × Int)) :
    Except String (Int × Int × Int × Int) :=
  if environment = "MONITOR" ∨ environment = "MAC" then
    get_hardcoded_window environment
  else
    match stageA with
    | some b => .ok b
    | none =>
      match stageB with
      | some b => .ok b
      | none => .ok (fallback_bbox screen_width screen_height)

/- ### capture_and_stitch.py as an event trace -/

/- One observable pointer or capture action of the orchestrator.  Pointer
coordinates, sleeps and logging are abstracted; scroll magnitudes (the
argument of `perform_stepped_scroll`) and screenshot indices (the `index`
argument of `take_high_quality_screenshot`) are kept exact. -/
inductive CaptureEvent where
  | moveCenter : CaptureEvent
  | click : CaptureEvent
  | scrollBy : Int → CaptureEvent
  | screenshot : Nat → CaptureEvent
deriving DecidableEq

/- The AIR branch loop `for i in range(3)` of `capture_and_stitch_profile`
(capture_and_stitch.py lines 72-86): click next photo, then screenshot
number `i + 2`. -/
def air_click_loop : Nat → Nat → List CaptureEvent
  | 0, _ => []
  | n + 1, i => [.click, .screenshot (i + 2)] ++ air_click_loop n (i + 1)

/- The non-AIR loop `for i in range(num_scrolls - 1)`
(capture_and_stitch.py lines 103-116): refocus, scroll by the subsequent
amount, then screenshot number `i + 3`. -/
def scroll_capture_loop : Nat → Nat → List CaptureEvent
  | 0, _ => []
  | n + 1, i =>
    [.moveCenter, .click, .scrollBy SUBSEQUENT_SCROLL_AMOUNT, .screenshot (i + 3)]
      ++ scroll_capture_loop n (i + 1)

/- Event trace of a successful `capture_and_stitch_profile` run
(capture_and_stitch.py lines 45-136): focus and initial screenshot 1, then
either the AIR click loop (screenshots 2-4) or the first scroll, screenshot
2 and the subsequent scroll loop.  The scroll-back-to-top block was removed
from the function (lines 118-122 are a comment and `pass`), so the trace
ends after the last capture; stitching adds no pointer events. -/
def capture_and_stitch_trace (env : String) (num_scrolls : Nat) : List CaptureEvent :=
  [.moveCenter, .click, .screenshot 1] ++
  (if env = "AIR" then air_click_loop 3 0
   else [.scrollBy FIRST_SCROLL_AMOUNT, .screenshot 2]
     ++ scroll_capture_loop (num_scrolls - 1) 0)

/- The downward loop `for i in range(1, NUM_SCROLLS)` of `scroll_profile`
(scroll.py lines 282-296). -/
def down_scroll_loop : Nat → List CaptureEvent
  | 0 => []
  | n + 1 => [.click, .scrollBy SUBSEQUENT_SCROLL_AMOUNT] ++ down_scroll_loop n

/- The scroll-back-to-top loop `for i in range(scrolls_needed)` of
`scroll_profile` (scroll.py lines 308-313). -/
def up_scroll_loop : Nat → List CaptureEvent
  | 0 => []
  | n + 1 => [.click, .scrollBy UP_SCROLL_AMOUNT] ++ up_scroll_loop n

/- Event trace of `scroll_profile` (scroll.py lines 237-315): focus, first
scroll, `NUM_SCROLLS - 1` subsequent scrolls, then `scrolls_needed` upward
scrolls (`range` of a negative count is empty, hence `Int.toNat`). -/
def scroll_profile_trace (num : Nat) : List CaptureEvent :=
  [.moveCenter, .click] ++ [.click, .scrollBy FIRST_SCROLL_AMOUNT] ++
  down_scroll_loop (num - 1) ++ up_scroll_loop (scrolls_needed num).toNat

/- The screenshot indices of a trace, in capture order. -/
def screenshot_indices (t : List CaptureEvent) : List Nat :=
  t.filterMap fun e => match e with
    | .screenshot i => some i
    | _ => none

/- The scroll magnitudes of a trace, in order. -/
def scroll_amounts (t : List CaptureEvent) : List Int :=
  t.filterMap fun e => match e with
    | .scrollBy a => some a
    | _ => none

/- The upward (positive) scroll magnitudes of a trace. -/
def up_scrolls (t : List CaptureEvent) : List Int :=
  (scroll_amounts t).filter fun a => 0 < a

/- ### capture_and_stitch.py exception behaviour -/

/- Runs the capture steps of `capture_and_stitch_profile` in order.  Each
step models one screenshot capture (or the pointer action feeding it): it
either returns a path or raises.  Returns the paths accumulated in
`screenshot_paths` and the first raised exception, if any: the Python list
is appended to before any later step can raise, so on an exception the
prefix of successful paths is visible to the handler. -/
def run_capture_steps : List (Except String String) → List String × Option String
  | [] => ([], none)
  | .ok p :: rest =>
    let r := run_capture_steps rest
    (p :: r.1, r.2)
  | .error e :: _ => ([], some e)

/- `capture_and_stitch_profile` (capture_and_stitch.py lines 45-141) viewed
through its exception behaviour.  The whole body is wrapped in
`try ... except Exception` (lines 46 and 138-141): if any step raises, the
handler logs and returns `(None, screenshot_paths)`; if all steps succeed
the screenshots are stitched (the timestamp-based stitched filename is
abstracted to a fixed tag; `stitch_images` itself raises on an empty list,
which the same handler catches).  The result is `Except.ok` of the Python
return value; `Except.error` would model an exception propagating to the
caller, which the function never does. -/
def capture_and_stitch_profile (steps : List (Except String String)) :
    Except String (Option String × List String) :=
  match run_capture_steps steps with
  | (ps, some _) => .ok (none, ps)
  | (ps, none) =>
    if ps.isEmpty then .ok (none, ps) else .ok (some "profile_stitched", ps)

/- ### Specification predicates used by theorems and their witnesses -/

/- Conclusion of claim C8 for a screen of width `w` and height `h`: the
synthesized rectangle has width `w / 4`, aspect ratio within 0.1 of 9/19.5,
and is centered (left and right gaps, and top and bottom gaps, differ by at
most one pixel, the floor-division residue). -/
def c8_spec (w h : Nat) : Prop :=
  estimated_width w = w / 4 ∧
  |((estimated_width w : ℚ) / (estimated_height w : ℚ)) - 9 / 19.5| ≤ 0.1 ∧
  (fallback_x w ≤ (w : Int) - (fallback_x w + (estimated_width w : Int)) ∧
   (w : Int) - (fallback_x w + (estimated_width w : Int)) ≤ fallback_x w + 1) ∧
  (fallback_y w h ≤ (h : Int) - (fallback_y w h + (estimated_height w : Int)) ∧
   (h : Int) - (fallback_y w h + (estimated_height w : Int)) ≤ fallback_y w h + 1)

/- Conclusion of the amended claim C9 for point `(x, y)` and display
`(w, h)`: the clamped point is at least 50 from every edge. -/
def c9_spec (x y w h : Int) : Prop :=
  50 ≤ (get_safe_coordinates x y w h).1 ∧ (get_safe_coordinates x y w h).1 ≤ w - 50 ∧
  50 ≤ (get_safe_coordinates x y w h).2 ∧ (get_safe_coordinates x y w h).2 ≤ h - 50

theorem parse_lines_decision (ls : List (List Char)) :
    (parse_lines ls).1 = "LIKE" ∨ (parse_lines ls).1 = "PASS" := by
  match ls with
  | [] => left; rfl
  | [l0] =>
    simp only [parse_lines]
    split
    · next h =>
      rcases h with h | h <;> rw [h]
      · left; rfl
      · right; rfl
    · split
      · split
        · next h _ h2 =>
          rcases h2 with h2 | h2 <;> rw [h2]
          · left; rfl
          · right; rfl
        · left; rfl
      · left; rfl
  | l0 :: l1 :: rest =>
    simp only [parse_lines]
    split
    · split
      · next h =>
        split <;>
        · rcases h with h | h <;> rw [h]
          · left; rfl
          · right; rfl
      · left; rfl
    · left; rfl

theorem screenshot_indices_append (a b : List CaptureEvent) :
    screenshot_indices (a ++ b) = screenshot_indices a ++ screenshot_indices b :=
  List.filterMap_append a b _

theorem scroll_amounts_append (a b : List CaptureEvent) :
    scroll_amounts (a ++ b) = scroll_amounts a ++ scroll_amounts b :=
  List.filterMap_append a b _

theorem screenshot_indices_scroll_loop (n i : Nat) :
    screenshot_indices (scroll_capture_loop n i) = List.range' (i + 3) n := by
  induction n generalizing i with
  | zero => rfl
  | succ n ih =>
    rw [scroll_capture_loop, screenshot_indices_append, ih, List.range'_succ]
    show [i + 3] ++ List.range' (i + 1 + 3) n = (i + 3) :: List.range' (i + 3 + 1) n
    simp [Nat.add_right_comm]

theorem screenshot_indices_air_loop (n i : Nat) :
    screenshot_indices (air_click_loop n i) = List.range' (i + 2) n := by
  induction n generalizing i with
  | zero => rfl
  | succ n ih =>
    rw [air_click_loop, screenshot_indices_append, ih, List.range'_succ]
    show [i + 2] ++ List.range' (i + 1 + 2) n = (i + 2) :: List.range' (i + 2 + 1) n
    simp [Nat.add_right_comm]

theorem scroll_amounts_scroll_loop (n i : Nat) :
    scroll_amounts (scroll_capture_loop n i)
      = List.replicate n SUBSEQUENT_SCROLL_AMOUNT := by
  induction n generalizing i with
  | zero => rfl
  | succ n ih =>
    rw [scroll_capture_loop, scroll_amounts_append, ih]
    rfl

theorem scroll_amounts_air_loop (n i : Nat) :
    scroll_amounts (air_click_loop n i) = [] := by
  induction n generalizing i with
  | zero => rfl
  | succ n ih =>
    rw [air_click_loop, scroll_amounts_append, ih]
    rfl

theorem scroll_amounts_down_loop (n : Nat) :
    scroll_amounts (down_scroll_loop n) = List.replicate n SUBSEQUENT_SCROLL_AMOUNT := by
  induction n with
  | zero => rfl
  | succ n ih =>
    rw [down_scroll_loop, scroll_amounts_append, ih]
    rfl

theorem scroll_amounts_up_loop (n : Nat) :
    scroll_amounts (up_scroll_loop n) = List.replicate n UP_SCROLL_AMOUNT := by
  induction n with
  | zero => rfl
  | succ n ih =>
    rw [up_scroll_loop, scroll_amounts_append, ih]
    rfl

theorem up_scrolls_capture_trace (env : String) (num_scrolls : Nat) :
    up_scrolls (capture_and_stitch_trace env num_scrolls) = [] := by
  unfold up_scrolls capture_and_stitch_trace
  by_cases h : env = "AIR"
  · rw [if_pos h, scroll_amounts_append, scroll_amounts_air_loop]
    rfl
  · rw [if_neg h, scroll_amounts_append, scroll_amounts_append,
      scroll_amounts_scroll_loop, List.filter_append, List.filter_append,
      List.filter_replicate]
    rfl

/-- C6: the decision parser is total and never raises; it maps
"DECISION: LIKE\nREASON: nice photo" to the positive decision with reason
"nice photo"; it maps unrecognized text such as
"I cannot help with this request" to the fixed default LIKE with a reason
stating that parsing failed; and on every input the returned decision is one
of the two enum tokens. -/
theorem c6_parse_total_default :
    like_or_pass_parse "DECISION: LIKE\nREASON: nice photo" = ("LIKE", "nice photo")
    ∧ like_or_pass_parse "I cannot help with this request" = ("LIKE", parse_fail_reason)
    ∧ ∀ s : String,
        (like_or_pass_parse s).1 = "LIKE" ∨ (like_or_pass_parse s).1 = "PASS" :=
  ⟨by decide, by decide, fun _ => parse_lines_decision _⟩

/-- C5 counterexample: on "PASS\nsome reason" the first line, trimmed and
uppercased, is exactly the known token PASS, yet the parser does not return
PASS (it falls back to the LIKE default), so a bare token is not accepted
when a reason line follows. -/
theorem c5_counterexample :
    (like_or_pass_parse "PASS\nsome reason").1 ≠ "PASS" := by decide

/-- C5 (amended): a first line that trims and uppercases to exactly LIKE or
PASS is accepted as the decision only when it is the entire response (a
single line); when a second line follows such a bare token, the two-line
branch requires the DECISION: label, parsing fails, and the LIKE default
with the failure reason is returned. -/
theorem c5_bare_token_single_line_only :
    (∀ (s : String) (l : List Char),
       pySplit '\n' (pyStrip s.data) = [l] →
       pyUpper (pyStrip l) = "LIKE".data ∨ pyUpper (pyStrip l) = "PASS".data →
       like_or_pass_parse s = (String.mk (pyUpper (pyStrip l)), no_reason_msg))
    ∧ (∀ (s : String) (l0 l1 : List Char) (rest : List (List Char)),
       pySplit '\n' (pyStrip s.data) = l0 :: l1 :: rest →
       pyUpper (pyStrip l0) = "LIKE".data ∨ pyUpper (pyStrip l0) = "PASS".data →
       like_or_pass_parse s = ("LIKE", parse_fail_reason)) := by
  constructor
  · intro s l h h2
    unfold like_or_pass_parse
    rw [h]
    simp only [parse_lines]
    rcases h2 with h2 | h2 <;> rw [h2] <;> decide
  · intro s l0 l1 rest h h2
    unfold like_or_pass_parse
    rw [h]
    simp only [parse_lines]
    rcases h2 with h2 | h2 <;> rw [h2] <;> rw [if_neg (by decide)]

/-- C5 witness: the single-line response "pass" is accepted as PASS, while
"PASS\nsome reason" falls back to the LIKE default. -/
theorem c5_witness :
    like_or_pass_parse "pass" = ("PASS", no_reason_msg)
    ∧ like_or_pass_parse "PASS\nsome reason" = ("LIKE", parse_fail_reason) := by
  constructor
  · have h := c5_bare_token_single_line_only.1 "pass" ("pass".data)
      (by decide) (Or.inr (by decide))
    rw [h]
    decide
  · exact c5_bare_token_single_line_only.2 "PASS\nsome reason" ("PASS".data)
      ("some reason".data) [] (by decide) (Or.inr (by decide))

/-- C3 counterexample: a capture step that raises does not propagate out of
capture_and_stitch_profile; with a first successful capture and a second
raising step the function returns normally with (None, partial paths)
instead of the exception. -/
theorem c3_counterexample :
    capture_and_stitch_profile [Except.ok "p1", Except.error "FailSafeException"]
      = Except.ok (none, ["p1"]) := rfl

/-- C3 (amended): any exception raised during an individual capture step is
caught by the try/except wrapper of capture_and_stitch_profile, which
returns (None, accumulated screenshot paths) to the caller instead of
propagating the exception. -/
theorem c3_orchestrator_catches (steps : List (Except String String)) (e : String)
    (h : (run_capture_steps steps).2 = some e) :
    capture_and_stitch_profile steps
      = Except.ok (none, (run_capture_steps steps).1) := by
  unfold capture_and_stitch_profile
  rcases hrs : run_capture_steps steps with ⟨ps, oe⟩
  rw [hrs] at h
  simp only at h
  rw [h]

/-- C3 witness: instantiating the amended claim on a run whose second step
raises "boom" after a first successful capture of "p1". -/
theorem c3_witness :
    (run_capture_steps [Except.ok "p1", Except.error "boom"]).2 = some "boom"
    ∧ capture_and_stitch_profile [Except.ok "p1", Except.error "boom"]
        = Except.ok (none, (run_capture_steps [Except.ok "p1", Except.error "boom"]).1) :=
  ⟨rfl, c3_orchestrator_catches [Except.ok "p1", Except.error "boom"] "boom" rfl⟩

/-- C4: with N >= 1 configured paging actions, a successful run of
capture_and_stitch_profile takes exactly N + 1 screenshots whose indices,
in capture order, are exactly the contiguous increasing sequence
1, ..., N + 1; in the AIR environment the paging-action count is the
hardcoded 3, giving indices 1, ..., 4. -/
theorem c4_capture_indices (env : String) (N : Nat) (h1 : 1 ≤ N) :
    (env ≠ "AIR" →
       screenshot_indices (capture_and_stitch_trace env N) = List.range' 1 (N + 1)
       ∧ (screenshot_indices (capture_and_stitch_trace env N)).length = N + 1)
    ∧ screenshot_indices (capture_and_stitch_trace "AIR" N) = List.range' 1 (3 + 1) := by
  obtain ⟨k, rfl⟩ : ∃ k, N = k + 1 := ⟨N - 1, by omega⟩
  constructor
  · intro hne
    have ht : capture_and_stitch_trace env (k + 1)
        = [CaptureEvent.moveCenter, CaptureEvent.click, CaptureEvent.screenshot 1]
          ++ ([CaptureEvent.scrollBy FIRST_SCROLL_AMOUNT, CaptureEvent.screenshot 2]
              ++ scroll_capture_loop k 0) := by
      unfold capture_and_stitch_trace
      rw [if_neg hne, Nat.add_sub_cancel]
    have hsi : screenshot_indices (capture_and_stitch_trace env (k + 1))
        = List.range' 1 (k + 1 + 1) := by
      rw [ht, screenshot_indices_append, screenshot_indices_append,
        screenshot_indices_scroll_loop]
      show [1] ++ ([2] ++ List.range' 3 k) = List.range' 1 (k + 2)
      rw [List.range'_succ, List.range'_succ]
      rfl
    exact ⟨hsi, by rw [hsi, List.length_range']⟩
  · have ht : capture_and_stitch_trace "AIR" (k + 1)
        = [CaptureEvent.moveCenter, CaptureEvent.click, CaptureEvent.screenshot 1]
          ++ air_click_loop 3 0 := by
      unfold capture_and_stitch_trace
      rw [if_pos rfl]
    rw [ht, screenshot_indices_append, screenshot_indices_air_loop]
    rfl

/-- C4 witness: a PRO run with 5 scrolls produces the six indices
1, 2, 3, 4, 5, 6. -/
theorem c4_witness :
    screenshot_indices (capture_and_stitch_trace "PRO" 5) = List.range' 1 6
    ∧ List.range' 1 6 = [1, 2, 3, 4, 5, 6] :=
  ⟨((c4_capture_indices "PRO" 5 (by norm_num)).1 (by decide)).1, by decide⟩

/-- C10 counterexample: in the scroll strategy (PRO, 5 scrolls) the
orchestrator scrolls down a total of 3400 pixels yet issues zero upward
scroll actions before the sequence ends, so it does not return the view to
the top. -/
theorem c10_counterexample :
    up_scrolls (capture_and_stitch_trace "PRO" 5) = []
    ∧ (scroll_amounts (capture_and_stitch_trace "PRO" 5)).sum = -3400 := by
  constructor
  · exact up_scrolls_capture_trace "PRO" 5
  · decide

/-- C10 (amended): the scroll-back-to-top step was removed from
capture_and_stitch_profile, whose trace contains no upward scroll for any
environment and scroll count; the total-distance computation and the upward
scroll actions live in the standalone scroll_profile routine, which issues
exactly scrolls_needed upward scrolls of the scroll-up magnitude, where
scrolls_needed num = (|first| + |subsequent| * (num - 1)) // |up| + 1
(6 actions for the default 5 scrolls). -/
theorem c10_scroll_up_in_scroll_profile :
    (∀ (env : String) (num_scrolls : Nat),
        up_scrolls (capture_and_stitch_trace env num_scrolls) = [])
    ∧ (∀ num : Nat,
        up_scrolls (scroll_profile_trace num)
          = List.replicate (scrolls_needed num).toNat UP_SCROLL_AMOUNT)
    ∧ (scrolls_needed 5).toNat = 6 := by
  refine ⟨up_scrolls_capture_trace, fun num => ?_, by decide⟩
  unfold up_scrolls scroll_profile_trace
  rw [scroll_amounts_append, scroll_amounts_append, scroll_amounts_append,
    scroll_amounts_down_loop, scroll_amounts_up_loop,
    List.filter_append, List.filter_append, List.filter_append,
    List.filter_replicate, List.filter_replicate]
  rfl

/-- C7 counterexample: with the environment setting MAC the locator routes
to the hardcoded-window lookup, which has no MAC profile and raises
NotImplementedError instead of returning a rectangle, regardless of the
detection inputs. -/
theorem c7_counterexample :
    find_iphone_window "MAC" 2511 1051 none none
      = Except.error ("No hardcoded window dimensions for environment: " ++ "MAC")
    ∧ (find_iphone_window "MAC" 2511 1051 none none).isOk = false := ⟨rfl, rfl⟩

/-- C7 (amended): for every environment setting other than MAC the locator
returns a bounding rectangle without raising: MONITOR uses the hardcoded
window, and every other environment resolves detection misses through the
stage A / stage B chain ending in the synthesized centered estimate. -/
theorem c7_locator_total_except_mac (env : String) (w h : Nat)
    (stageA stageB : Option (Int × Int × Int × Int)) (hmac : env ≠ "MAC") :
    (∃ bb, find_iphone_window env w h stageA stageB = Except.ok bb)
    ∧ (env ≠ "MONITOR" →
        find_iphone_window env w h none none = Except.ok (fallback_bbox w h)) := by
  constructor
  · unfold find_iphone_window
    by_cases hm : env = "MONITOR" ∨ env = "MAC"
    · rw [if_pos hm]
      rcases hm with hm | hm
      · subst hm
        exact ⟨_, rfl⟩
      · exact absurd hm hmac
    · rw [if_neg hm]
      cases stageA with
      | some bb => exact ⟨bb, rfl⟩
      | none =>
        cases stageB with
        | some bb => exact ⟨bb, rfl⟩
        | none => exact ⟨_, rfl⟩
  · intro hmon
    unfold find_iphone_window
    rw [if_neg (by simp [hmon, hmac])]

/-- C7 witness: in the PRO environment with both detection stages missing,
the locator returns the synthesized estimate for a 2511 x 1051 screen. -/
theorem c7_witness :
    (∃ bb, find_iphone_window "PRO" 2511 1051 none none = Except.ok bb)
    ∧ find_iphone_window "PRO" 2511 1051 none none
        = Except.ok (fallback_bbox 2511 1051) :=
  ⟨(c7_locator_total_except_mac "PRO" 2511 1051 none none (by decide)).1,
   (c7_locator_total_except_mac "PRO" 2511 1051 none none (by decide)).2 (by decide)⟩

/-- C9 counterexample: the clamp bound fails for a display smaller than
twice the margin: on a 60 x 60 display the clamped point is (50, 50), which
exceeds width - margin = 10, so the claimed bound does not hold for every
display size. -/
theorem c9_counterexample :
    get_safe_coordinates 0 0 60 60 = (50, 50) ∧ ¬ ((50 : Int) ≤ 60 - 50) :=
  ⟨rfl, by decide⟩

/-- C9 (amended): for any integer point and any display at least twice the
margin in each dimension (w, h >= 100), the clamped point satisfies
50 <= x <= w - 50 and 50 <= y <= h - 50. -/
theorem c9_clamp_within_margins (x y w h : Int) (hw : 100 ≤ w) (hh : 100 ≤ h) :
    c9_spec x y w h := by
  unfold c9_spec get_safe_coordinates
  refine ⟨le_max_left _ _, ?_, le_max_left _ _, ?_⟩
  · exact max_le (by omega) (min_le_right _ _)
  · exact max_le (by omega) (min_le_right _ _)

/-- C9 witness: the amended claim instantiated at the point (0, 0) on the
2511 x 1051 MONITOR display. -/
theorem c9_witness :
    (100 : Int) ≤ 2511 ∧ (100 : Int) ≤ 1051 ∧ c9_spec 0 0 2511 1051 :=
  ⟨by decide, by decide, c9_clamp_within_margins 0 0 2511 1051 (by decide) (by decide)⟩

/-- C2 counterexample: with no explicit layout, 4 images are laid out on the
default 2 x 3 grid, not a 2 x 2 grid. -/
theorem c2_counterexample : stitch_grid 4 none ≠ (2, 2) := by decide

/-- C2 (amended): with no explicit layout, 6 images get a 2-row by 3-column
grid and 4 images also get the 2 x 3 grid (the default is 1 x n for n <= 3
and 2 x 3 otherwise); in every case the canvas dimensions are
cols * img_width by rows * img_height, where the image dimensions are those
of the first image. -/
theorem c2_default_layout_canvas (w h : Nat) :
    stitch_grid 6 none = (2, 3)
    ∧ stitch_grid 4 none = (2, 3)
    ∧ stitch_canvas 6 none w h = (3 * w, 2 * h)
    ∧ stitch_canvas 4 none w h = (3 * w, 2 * h)
    ∧ ∀ (n : Nat) (layout : Option (Nat × Nat)),
        stitch_canvas n layout w h
          = ((stitch_grid n layout).2 * w, (stitch_grid n layout).1 * h) :=
  ⟨rfl, rfl, rfl, rfl, fun _ _ => rfl⟩

/-- C1: the index extraction of stitch_images never recovers the step index
from the filename convention that the capture module actually produces
(profile_screenshot_INDEX_TIMESTAMP.png): splitting on underscores puts the
word screenshot, not the index, at position 1, so every such file gets the
default key 999 and the stable sort leaves the input order unchanged - two
orderings of the same two capture files stitch in different paste orders. -/
theorem c1_extract_index_misses_convention :
    extract_index "profile_screenshot_1_20250101_120000.png" = 999
    ∧ extract_index "profile_screenshot_2_20250101_120000.png" = 999
    ∧ sorted_by_index
        ["profile_screenshot_2_20250101_120000.png",
         "profile_screenshot_1_20250101_120000.png"]
      = ["profile_screenshot_2_20250101_120000.png",
         "profile_screenshot_1_20250101_120000.png"]
    ∧ sorted_by_index
        ["profile_screenshot_1_20250101_120000.png",
         "profile_screenshot_2_20250101_120000.png"]
      = ["profile_screenshot_1_20250101_120000.png",
         "profile_screenshot_2_20250101_120000.png"] :=
  ⟨rfl, rfl, by decide, by decide⟩

/-- C8: when both visual-detection stages miss, the synthesized rectangle
has width equal to one quarter of the screen width (integer division),
aspect ratio within 0.1 of 9/19.5, and is centered horizontally and
vertically (opposite gaps differ by at most the floor-division residue of
one pixel); stated for screens of width at least 4 so the quarter width,
and with it the aspect ratio, is nonzero. -/
theorem c8_fallback_geometry (w h : Nat) (hw : 4 ≤ w) : c8_spec w h := by
  unfold c8_spec
  refine ⟨rfl, ?_, ?_, ?_⟩
  · simp only [estimated_width, estimated_height]
    obtain ⟨q, m, hm, hqm⟩ : ∃ q m, m < 6 ∧ w / 4 = 6 * q + m :=
      ⟨w / 4 / 6, w / 4 % 6, by omega, by omega⟩
    have hc : w / 4 * 39 / 18 = 13 * q + 2 * m := by omega
    have ha : 1 ≤ w / 4 := by omega
    have k1 : 6 * (w / 4 * 39 / 18) ≤ 13 * (w / 4) := by omega
    have k2 : 130 * (w / 4) ≤ 73 * (w / 4 * 39 / 18) := by omega
    have hbQ : (0 : ℚ) < ((w / 4 * 39 / 18 : Nat) : ℚ) := by
      exact_mod_cast (by omega : 0 < w / 4 * 39 / 18)
    rw [abs_le]
    constructor
    · have h1 : (6 : ℚ) / 13 ≤ ((w / 4 : Nat) : ℚ) / ((w / 4 * 39 / 18 : Nat) : ℚ) := by
        rw [div_le_div_iff₀ (by norm_num) hbQ]
        have hcast : (6 : ℚ) * ((w / 4 * 39 / 18 : Nat) : ℚ)
            ≤ 13 * ((w / 4 : Nat) : ℚ) := by exact_mod_cast k1
        linarith
      norm_num
      linarith
    · have h2 : ((w / 4 : Nat) : ℚ) / ((w / 4 * 39 / 18 : Nat) : ℚ) ≤ 73 / 130 := by
        rw [div_le_div_iff₀ hbQ (by norm_num)]
        have hcast : (130 : ℚ) * ((w / 4 : Nat) : ℚ)
            ≤ 73 * ((w / 4 * 39 / 18 : Nat) : ℚ) := by exact_mod_cast k2
        linarith
      norm_num
      linarith
  · simp only [fallback_x, estimated_width]
    rw [Int.fdiv_eq_ediv _ (by norm_num)]
    omega
  · simp only [fallback_y, estimated_height, estimated_width]
    rw [Int.fdiv_eq_ediv _ (by norm_num)]
    omega

/-- C8 witness: the fallback geometry instantiated on the 2511 x 1051
MONITOR screen. -/
theorem c8_witness : 4 ≤ 2511 ∧ c8_spec 2511 1051 :=
  ⟨by norm_num, c8_fallback_geometry 2511 1051 (by norm_num)⟩
